import Mathlib

/-!
Shallow embedding of the resource-control plane of the repository:
`src/infraestrutura/registro_modelos.py` (model catalog),
`src/infraestrutura/agendador_modelos.py` (operation scheduler) and
`src/infraestrutura/fila_requisicoes.py` (request admission queue).

Modelling conventions:
* Python floats are modelled as exact numbers: timestamps, durations and
  deadlines (compared and subtracted, always whole in the traces below) as
  integers; megabytes, rates and percentages as rationals.
* Python dicts (insertion-ordered, assignment overwrites in place) are
  association lists manipulated through `dictSet` / `dictDel`; `List.lookup`
  plays the role of `dict.get`.
* `heapq` / `queue.PriorityQueue` pops are modelled by extraction of a least
  element under the source's `__lt__` comparator (`extractMin`), which is the
  documented contract of those library containers.
* `list.sort` (Timsort, stable) is modelled by Mathlib's stable
  `List.insertionSort` with the comparison relation the call site induces.
* The concurrent threads of the source are modelled as a sequential
  interleaving of atomic steps (`Passo`), each step translated from one
  lock-protected block or one status-assignment of the source.  Inputs the
  source reads from external collaborators (GPU monitor statistics, resource
  availability) are parameters of the corresponding step.
* Logging, callback invocation (I/O on the side), and the filesystem metadata
  refresh `_atualizar_metadados_arquivo` (reads the model file on disk,
  touching only the `tamanho_arquivo_mb`/`hash_arquivo`/`data_modificacao`
  bookkeeping fields, which no claim mentions) are not modelled.
-/

/-- Python dict assignment `d[k] = v`: overwrite in place when the key exists
(keeping its position), else append (insertion order). -/
def dictSet {α : Type} (k : String) (v : α) (l : List (String × α)) : List (String × α) :=
  if l.any (fun p => decide (p.1 = k)) then
    l.map (fun p => if p.1 = k then (k, v) else p)
  else
    l ++ [(k, v)]

/-- Python `del d[k]`. -/
def dictDel {α : Type} (k : String) (l : List (String × α)) : List (String × α) :=
  l.filter (fun p => decide (p.1 ≠ k))

/-- `StatusModelo` of `registro_modelos.py`. -/
inductive StatusModelo where
  | descarregado
  | carregando
  | carregado
  | descarregando
  | erro
  | erro_memoria
  | erro_arquivo
deriving DecidableEq

/-- `MetadadosModelo` of `registro_modelos.py`.  The enum-valued descriptor
fields (`quantizacao`, `especialidade`) and the free-form `configuracoes`
dict are carried as opaque strings/omitted; the dynamically filled
performance fields keep their dataclass defaults. -/
structure MetadadosModelo where
  nome : String
  caminho : String
  tipo_modelo : String
  memoria_necessaria_mb : ℚ
  versao : String
  prioridade : ℕ
  dependencias : List String
  ultima_utilizacao : ℤ := 0
  total_utilizacoes : ℕ := 0
  tempo_medio_carregamento : ℚ := 0
  taxa_sucesso : ℚ := 100
deriving DecidableEq

/-- `StatusDetalhado` of `registro_modelos.py` (the live status record;
`tempo_no_status` is derived on read and `processo_id` never consulted). -/
structure StatusDetalhado where
  status : StatusModelo
  timestamp : ℤ
  gpu_id : Option ℕ := none
  memoria_alocada_mb : ℚ := 0
  erro_detalhes : Option String := none
deriving DecidableEq

/-- The mutable storage of `RegistroModelos` (`self.modelos`,
`self.status_modelos`, `self.gpu_alocacoes`). -/
structure RegistroModelos where
  modelos : List (String × MetadadosModelo) := []
  status_modelos : List (String × StatusDetalhado) := []
  gpu_alocacoes : List (String × ℕ) := []
deriving DecidableEq

/-- `RegistroModelos.registrar_modelo`: store the descriptor under its name and
(re)initialise the live status record to `DESCARREGADO` with a fresh
timestamp. -/
def RegistroModelos.registrar_modelo (reg : RegistroModelos) (agora : ℤ)
    (metadados : MetadadosModelo) : RegistroModelos :=
  { reg with
    modelos := dictSet metadados.nome metadados reg.modelos,
    status_modelos :=
      dictSet metadados.nome
        { status := StatusModelo.descarregado, timestamp := agora } reg.status_modelos }

/-- `RegistroModelos.obter_metadados`. -/
def RegistroModelos.obter_metadados (reg : RegistroModelos) (nome : String) :
    Option MetadadosModelo :=
  reg.modelos.lookup nome

/-- `RegistroModelos.atualizar_status`: `ValueError` on an unknown model is the
`Except.error` branch; otherwise the status record is replaced wholesale and
the GPU allocation table maintained. -/
def RegistroModelos.atualizar_status (reg : RegistroModelos) (agora : ℤ) (nome : String)
    (novo : StatusModelo) (g : Option ℕ) (memoria : ℚ) (detalhes : Option String) :
    Except String RegistroModelos :=
  if (reg.modelos.lookup nome).isSome then
    let status_novos :=
      dictSet nome
        { status := novo, timestamp := agora, gpu_id := g,
          memoria_alocada_mb := memoria, erro_detalhes := detalhes } reg.status_modelos
    let alocacoes :=
      match novo, g with
      | StatusModelo.carregado, some gid => dictSet nome gid reg.gpu_alocacoes
      | _, _ =>
        if novo = StatusModelo.descarregado ∧ (reg.gpu_alocacoes.lookup nome).isSome then
          dictDel nome reg.gpu_alocacoes
        else reg.gpu_alocacoes
    Except.ok { reg with status_modelos := status_novos, gpu_alocacoes := alocacoes }
  else
    Except.error ("Modelo nao registrado: " ++ nome)

/-- The statistics update of `RegistroModelos.registrar_utilizacao` on one
model's metadata: refresh last use, bump the use count, fold the load time
into the 0.8/0.2 moving average (first nonzero sample sets it directly), and
move the success rate additively (+1 capped at 100 on success, −5 floored at
0 on failure). -/
def MetadadosModelo.registrar_uso (m : MetadadosModelo) (agora : ℤ)
    (tempo_carregamento : ℚ) (sucesso : Bool) : MetadadosModelo :=
  let m1 := { m with ultima_utilizacao := agora, total_utilizacoes := m.total_utilizacoes + 1 }
  let m2 :=
    if 0 < tempo_carregamento then
      if m1.tempo_medio_carregamento = 0 then
        { m1 with tempo_medio_carregamento := tempo_carregamento }
      else
        { m1 with tempo_medio_carregamento :=
            m1.tempo_medio_carregamento * (0.8 : ℚ) + tempo_carregamento * (0.2 : ℚ) }
    else m1
  if sucesso then
    { m2 with taxa_sucesso := min 100 (m2.taxa_sucesso + 1) }
  else
    { m2 with taxa_sucesso := max 0 (m2.taxa_sucesso - 5) }

/-- `RegistroModelos.registrar_utilizacao`: silently a no-op on an unknown
model. -/
def RegistroModelos.registrar_utilizacao (reg : RegistroModelos) (agora : ℤ) (nome : String)
    (tempo_carregamento : ℚ) (sucesso : Bool) : RegistroModelos :=
  match reg.modelos.lookup nome with
  | none => reg
  | some m =>
    { reg with modelos := dictSet nome (m.registrar_uso agora tempo_carregamento sucesso) reg.modelos }

/-- `RegistroModelos.calcular_memoria_total_necessaria`: fold over the names,
adding the required memory of those that resolve; a name that does not
resolve adds nothing. -/
def RegistroModelos.calcular_memoria_total_necessaria (reg : RegistroModelos)
    (nomes : List String) : ℚ :=
  nomes.foldl
    (fun total nome =>
      match reg.obter_metadados nome with
      | some modelo => total + modelo.memoria_necessaria_mb
      | none => total) 0

/-- `RegistroModelos.listar_modelos_por_status`: the names whose live status
record carries the given state, in table (dict) order. -/
def RegistroModelos.listar_modelos_por_status (reg : RegistroModelos)
    (status : StatusModelo) : List String :=
  (reg.status_modelos.filter (fun p => decide (p.2.status = status))).map (fun p => p.1)

/-- `RegistroModelos.obter_modelos_carregados`. -/
def RegistroModelos.obter_modelos_carregados (reg : RegistroModelos) : List String :=
  reg.listar_modelos_por_status StatusModelo.carregado

/-- `TipoOperacao` of `agendador_modelos.py`. -/
inductive TipoOperacao where
  | carregar
  | descarregar
  | reload
  | preload
deriving DecidableEq

/-- `OperacaoModelo` of `agendador_modelos.py` (priorities are carried as their
enum `.value`: BAIXA 1, NORMAL 5, ALTA 8, CRITICA 10; the completion callback
and free-form metadata are not data). -/
structure OperacaoModelo where
  id_operacao : String
  nome_modelo : String
  tipo : TipoOperacao
  prioridade : ℕ
  timestamp_criacao : ℤ
  gpu_preferida : Option ℕ := none
  timeout : ℤ := 300
deriving DecidableEq

/-- `OperacaoModelo.__lt__`: strictly higher priority first, then earlier
creation timestamp. -/
def OperacaoModelo.lt (a b : OperacaoModelo) : Bool :=
  if a.prioridade ≠ b.prioridade then
    decide (a.prioridade > b.prioridade)
  else
    decide (a.timestamp_criacao < b.timestamp_criacao)

/-- Extraction of a least element under a strict comparator, the contract of
`heapq.heappop`; among equally-least elements the earliest list position is
returned. `none` only on the empty list. -/
def extractMin {α : Type} (lt : α → α → Bool) : List α → Option (α × List α)
  | [] => none
  | a :: rest =>
    match extractMin lt rest with
    | none => some (a, [])
    | some (m, r) => if lt m a then some (m, a :: r) else some (a, rest)

/-- Fuel-indexed repeated extraction. -/
def drainAux {α : Type} (lt : α → α → Bool) : ℕ → List α → List α
  | 0, _ => []
  | n + 1, l =>
    match extractMin lt l with
    | none => []
    | some (x, r) => x :: drainAux lt n r

/-- Draining the scheduler's heap with no further pushes: the sequence of
`heapq.heappop` results of `_loop_scheduler` until the queue is empty. -/
def drainFila {α : Type} (lt : α → α → Bool) (l : List α) : List α :=
  drainAux lt l.length l

/-- The `(ultima_utilizacao, nome, prioridade)` triples `_otimizar_memoria`
builds for the currently `CARREGADO` models (skipping names whose metadata
does not resolve). -/
def triplosCarregados (reg : RegistroModelos) : List (ℤ × String × ℕ) :=
  reg.obter_modelos_carregados.filterMap
    (fun nome =>
      (reg.obter_metadados nome).map (fun m => (m.ultima_utilizacao, nome, m.prioridade)))

/-- Python's ascending comparison on `(float, str, int)` tuples:
lexicographic. -/
def tuplaLE (a b : ℤ × String × ℕ) : Prop :=
  a.1 < b.1 ∨ (a.1 = b.1 ∧ (a.2.1 < b.2.1 ∨ (a.2.1 = b.2.1 ∧ a.2.2 ≤ b.2.2)))

instance : DecidableRel tuplaLE := fun a b => by
  unfold tuplaLE
  infer_instance

instance : IsTotal (ℤ × String × ℕ) tuplaLE := by
  constructor
  intro a b
  unfold tuplaLE
  rcases lt_trichotomy a.1 b.1 with h | h | h
  · exact Or.inl (Or.inl h)
  · rcases lt_trichotomy a.2.1 b.2.1 with h2 | h2 | h2
    · exact Or.inl (Or.inr ⟨h, Or.inl h2⟩)
    · rcases le_total a.2.2 b.2.2 with h3 | h3
      · exact Or.inl (Or.inr ⟨h, Or.inr ⟨h2, h3⟩⟩)
      · exact Or.inr (Or.inr ⟨h.symm, Or.inr ⟨h2.symm, h3⟩⟩)
    · exact Or.inr (Or.inr ⟨h.symm, Or.inl h2⟩)
  · exact Or.inr (Or.inl h)

instance : IsTrans (ℤ × String × ℕ) tuplaLE := by
  constructor
  intro a b c hab hbc
  unfold tuplaLE at hab hbc ⊢
  rcases hab with h1 | ⟨he1, h1⟩
  · rcases hbc with h2 | ⟨he2, _⟩
    · exact Or.inl (lt_trans h1 h2)
    · exact Or.inl (he2 ▸ h1)
  · rcases hbc with h2 | ⟨he2, h2⟩
    · exact Or.inl (he1 ▸ h2)
    · refine Or.inr ⟨he1.trans he2, ?_⟩
      rcases h1 with hs1 | ⟨hse1, hn1⟩
      · rcases h2 with hs2 | ⟨hse2, _⟩
        · exact Or.inl (lt_trans hs1 hs2)
        · exact Or.inl (hse2 ▸ hs1)
      · rcases h2 with hs2 | ⟨hse2, hn2⟩
        · exact Or.inl (hse1 ▸ hs2)
        · exact Or.inr ⟨hse1.trans hse2, le_trans hn1 hn2⟩

/-- The selection loop of `_otimizar_memoria` over the sorted triples: stop
when the (fixed) measured usage is below the low-water mark, unload models of
priority < 8, skip the rest. -/
def otimizarLoop (percentual : ℚ) : List (ℤ × String × ℕ) → List String
  | [] => []
  | t :: resto =>
    if percentual < 70 then []
    else if t.2.2 < 8 then t.2.1 :: otimizarLoop percentual resto
    else otimizarLoop percentual resto

/-- `AgendadorModelos._otimizar_memoria`: one memory-pressure sweep.
`percentual` is the monitor's `percentual_memoria_usada` reading, fetched once
before the loop (the source re-reads the same statistics dict, so the value is
the same at every iteration).  Returns the model names whose unload the sweep
schedules, in scheduling order. -/
def AgendadorModelos.otimizar_memoria (percentual : ℚ) (reg : RegistroModelos) :
    List String :=
  if percentual > 85 then
    otimizarLoop percentual (List.insertionSort tuplaLE (triplosCarregados reg))
  else []

/-- The triples `_otimizar_memoria` would unload: the sorted triples restricted
to priority < 8 (specification vocabulary for the theorems below). -/
def elegiveisEvicao (reg : RegistroModelos) : List (ℤ × String × ℕ) :=
  (List.insertionSort tuplaLE (triplosCarregados reg)).filter (fun t => decide (t.2.2 < 8))

/-- `StatusRequisicao` of `fila_requisicoes.py`. -/
inductive StatusRequisicao where
  | pendente
  | aguardando_recurso
  | processando
  | concluida
  | erro
  | cancelada
  | timeout
deriving DecidableEq

/-- The four terminal request states of the declared state machine
(spec §4.4: `Completed`, `Error`, `TimedOut`, `Cancelled`). -/
def StatusRequisicao.terminal : StatusRequisicao → Bool
  | StatusRequisicao.concluida => true
  | StatusRequisicao.erro => true
  | StatusRequisicao.cancelada => true
  | StatusRequisicao.timeout => true
  | _ => false

/-- `Requisicao` of `fila_requisicoes.py` (priorities as their enum `.value`;
the payload, declared kind, callbacks and metadata are opaque to the control
plane and omitted; `modelos_necessarios`/`memoria_estimada_mb` are the
estimation results). -/
structure Requisicao where
  id : String
  prioridade : ℕ := 5
  timestamp_criacao : ℤ
  timestamp_inicio : Option ℤ := none
  timestamp_conclusao : Option ℤ := none
  status : StatusRequisicao := StatusRequisicao.pendente
  progresso : ℚ := 0
  timeout : ℤ := 300
  modelos_necessarios : List String := []
  memoria_estimada_mb : ℚ := 0
  erro : Option String := none
deriving DecidableEq

/-- `Requisicao.__lt__`: strictly higher priority first, then earlier creation
timestamp. -/
def Requisicao.lt (a b : Requisicao) : Bool :=
  if a.prioridade ≠ b.prioridade then
    decide (a.prioridade > b.prioridade)
  else
    decide (a.timestamp_criacao < b.timestamp_criacao)

/-- The mutable state of `GerenciadorFilas`.  The Python queues hold aliases of
the `Requisicao` objects stored in `historico_requisicoes`; here the queues
hold the request ids and every record lives in `historico_requisicoes`, so a
mutation through any alias is a `setReq` on the history table. -/
structure GerenciadorFilas where
  max_concurrent : ℕ := 3
  fila_pendentes : List String := []
  fila_aguardando_recurso : List String := []
  requisicoes_ativas : List String := []
  historico_requisicoes : List (String × Requisicao) := []
  processadores_ativos : ℕ := 0

/-- `GerenciadorFilas.obter_status_requisicao`: `historico_requisicoes.get`. -/
def GerenciadorFilas.obter_status_requisicao (g : GerenciadorFilas) (id : String) :
    Option Requisicao :=
  g.historico_requisicoes.lookup id

/-- Mutation of one request record through any of its aliases. -/
def GerenciadorFilas.setReq (g : GerenciadorFilas) (id : String)
    (f : Requisicao → Requisicao) : GerenciadorFilas :=
  { g with historico_requisicoes :=
      g.historico_requisicoes.map (fun p => if p.1 = id then (p.1, f p.2) else p) }

/-- `GerenciadorFilas.adicionar_requisicao`: put on the pending priority queue
and record in the history (resource estimation only fills
`modelos_necessarios`/`memoria_estimada_mb`, carried as given here). -/
def GerenciadorFilas.adicionar_requisicao (g : GerenciadorFilas) (r : Requisicao) :
    GerenciadorFilas :=
  { g with
    fila_pendentes := g.fila_pendentes ++ [r.id],
    historico_requisicoes := dictSet r.id r g.historico_requisicoes }

/-- `self.fila_pendentes.get()`: pop the least request under
`Requisicao.__lt__` from the pending priority queue. -/
def GerenciadorFilas.popPendente (g : GerenciadorFilas) :
    Option (Requisicao × GerenciadorFilas) :=
  let reqs := g.fila_pendentes.filterMap (fun i => g.historico_requisicoes.lookup i)
  match extractMin Requisicao.lt reqs with
  | none => none
  | some (r, _) => some (r, { g with fila_pendentes := g.fila_pendentes.erase r.id })

/-- `GerenciadorFilas._iniciar_processamento`: unconditionally mark the request
`PROCESSANDO`, stamp its start, count a worker and track it as active. -/
def GerenciadorFilas.iniciar_processamento (g : GerenciadorFilas) (agora : ℤ) (id : String) :
    GerenciadorFilas :=
  let g1 := { g with
    processadores_ativos := g.processadores_ativos + 1,
    requisicoes_ativas := g.requisicoes_ativas ++ [id] }
  g1.setReq id (fun r =>
    { r with status := StatusRequisicao.processando, timestamp_inicio := some agora })

/-- One pass of the tail of `_loop_dispatcher`: if below the worker cap, pop
the next pending request; start it when resources are available
(`recursos`, the monitor's verdict), else park it in
`fila_aguardando_recurso` with status `AGUARDANDO_RECURSO`.  The popped
request's current status is never consulted. -/
def GerenciadorFilas.dispatchStep (g : GerenciadorFilas) (agora : ℤ) (recursos : Bool) :
    GerenciadorFilas :=
  if g.max_concurrent ≤ g.processadores_ativos then g
  else
    match g.popPendente with
    | none => g
    | some (r, g1) =>
      if recursos then g1.iniciar_processamento agora r.id
      else
        let g2 := g1.setReq r.id (fun q => { q with status := StatusRequisicao.aguardando_recurso })
        { g2 with fila_aguardando_recurso := g2.fila_aguardando_recurso ++ [r.id] }

/-- The iteration order of `_processar_fila_aguardando`:
`fila_aguardando_recurso.sort(reverse=True)`, i.e. a stable sort placing `a`
before `b` whenever `a < b` is false under `Requisicao.__lt__`. -/
def ordemAguardando (reqs : List Requisicao) : List Requisicao :=
  List.insertionSort (fun a b => Requisicao.lt a b = false) reqs

/-- The admission loop of `_processar_fila_aguardando`: walk the sorted waiting
requests; stop at the worker cap; start each whose resources are available
and drop it from the waiting list. -/
def GerenciadorFilas.admitirAguardando (agora : ℤ) (recursos : String → Bool) :
    GerenciadorFilas → List Requisicao → GerenciadorFilas
  | g, [] => g
  | g, r :: resto =>
    if g.max_concurrent ≤ g.processadores_ativos then g
    else if recursos r.id then
      let g1 := { g with fila_aguardando_recurso := g.fila_aguardando_recurso.erase r.id }
      GerenciadorFilas.admitirAguardando agora recursos (g1.iniciar_processamento agora r.id) resto
    else GerenciadorFilas.admitirAguardando agora recursos g resto

/-- `GerenciadorFilas._processar_fila_aguardando` (the waiting list's stored
order is immaterial: it is re-sorted on every sweep). -/
def GerenciadorFilas.processar_fila_aguardando (g : GerenciadorFilas) (agora : ℤ)
    (recursos : String → Bool) : GerenciadorFilas :=
  let reqs := g.fila_aguardando_recurso.filterMap (fun i => g.historico_requisicoes.lookup i)
  GerenciadorFilas.admitirAguardando agora recursos g (ordemAguardando reqs)

/-- `GerenciadorFilas.cancelar_requisicao`: only a `PENDENTE` or
`AGUARDANDO_RECURSO` request is marked `CANCELADA` (and removed from the
waiting list — but not from the pending priority queue, which has no removal
operation). -/
def GerenciadorFilas.cancelar_requisicao (g : GerenciadorFilas) (agora : ℤ) (id : String) :
    GerenciadorFilas × Bool :=
  match g.historico_requisicoes.lookup id with
  | none => (g, false)
  | some r =>
    if r.status = StatusRequisicao.pendente ∨ r.status = StatusRequisicao.aguardando_recurso then
      let g1 := g.setReq id (fun q =>
        { q with status := StatusRequisicao.cancelada, timestamp_conclusao := some agora })
      ({ g1 with fila_aguardando_recurso := g1.fila_aguardando_recurso.erase id }, true)
    else (g, false)

/-- `GerenciadorFilas._verificar_timeouts`: every active request whose age
since creation exceeds its timeout is marked `TIMEOUT` (it stays in
`requisicoes_ativas`; its worker keeps running). -/
def GerenciadorFilas.verificar_timeouts (g : GerenciadorFilas) (agora : ℤ) :
    GerenciadorFilas :=
  g.requisicoes_ativas.foldl
    (fun g1 id =>
      match g1.historico_requisicoes.lookup id with
      | none => g1
      | some r =>
        if agora - r.timestamp_criacao > r.timeout then
          g1.setReq id (fun q =>
            { q with status := StatusRequisicao.timeout, timestamp_conclusao := some agora })
        else g1) g

/-- The completion of a worker (`_processar_requisicao`'s tail): the request is
marked `CONCLUIDA` (success) or `ERRO` (captured exception) unconditionally —
the current status is not consulted — then the worker slot is released. -/
def GerenciadorFilas.concluir_processamento (g : GerenciadorFilas) (agora : ℤ) (id : String)
    (sucesso : Bool) (detalhe : Option String) : GerenciadorFilas :=
  if g.requisicoes_ativas.contains id then
    let g1 := g.setReq id (fun r =>
      if sucesso then
        { r with status := StatusRequisicao.concluida, timestamp_conclusao := some agora,
                 progresso := 1 }
      else
        { r with status := StatusRequisicao.erro, erro := detalhe,
                 timestamp_conclusao := some agora })
    { g1 with
      requisicoes_ativas := g1.requisicoes_ativas.erase id,
      processadores_ativos := g1.processadores_ativos - 1 }
  else g

/-- The aging rule of `_otimizar_filas` on one waiting request: waited more
than 300 s and priority value below ALTA (8) → priority becomes ALTA. -/
def agingAtualiza (agora : ℤ) (r : Requisicao) : Requisicao :=
  if agora - r.timestamp_criacao > 300 then
    if r.prioridade < 8 then { r with prioridade := 8 } else r
  else r

/-- `GerenciadorFilas._otimizar_filas`: apply the aging rule to every request
in the waiting list. -/
def GerenciadorFilas.otimizar_filas (g : GerenciadorFilas) (agora : ℤ) : GerenciadorFilas :=
  g.fila_aguardando_recurso.foldl (fun g1 id => g1.setReq id (agingAtualiza agora)) g

/-- Modelled from the spec: the priority ladder Low(1) → Normal(5) → High(8) →
Critical(10); `proximaBanda` is the "one band up" step the aging claim
refers to. -/
def proximaBanda : ℕ → ℕ
  | 1 => 5
  | 5 => 8
  | 8 => 10
  | n => n

/-- Modelled from the spec: a success rate maintained as an exponential moving
average, weight 0.2 for the new sample (100 = success, 0 = failure) and 0.8
for the old value, clamped to [0, 100]. -/
def taxaSucessoMediaMovel (antiga amostra : ℚ) : ℚ :=
  min 100 (max 0 (antiga * (0.8 : ℚ) + amostra * (0.2 : ℚ)))

/-- One atomic step of the sequential interleaving of the queue manager's
threads (public API calls, one dispatcher iteration, one monitor action, one
worker completion).  External inputs (clock readings, the GPU monitor's
resource verdicts) are carried by the step. -/
inductive Passo where
  | adicionar (r : Requisicao)
  | aguardandoSweep (agora : ℤ) (recursos : String → Bool)
  | dispatch (agora : ℤ) (recursos : Bool)
  | cancelar (agora : ℤ) (id : String)
  | timeouts (agora : ℤ)
  | concluir (agora : ℤ) (id : String) (sucesso : Bool) (detalhe : Option String)
  | aging (agora : ℤ)

/-- Apply one step. -/
def GerenciadorFilas.aplicar (g : GerenciadorFilas) : Passo → GerenciadorFilas
  | Passo.adicionar r => g.adicionar_requisicao r
  | Passo.aguardandoSweep agora recursos => g.processar_fila_aguardando agora recursos
  | Passo.dispatch agora recursos => g.dispatchStep agora recursos
  | Passo.cancelar agora id => (g.cancelar_requisicao agora id).1
  | Passo.timeouts agora => g.verificar_timeouts agora
  | Passo.concluir agora id sucesso detalhe => g.concluir_processamento agora id sucesso detalhe
  | Passo.aging agora => g.otimizar_filas agora

/-- Run a sequence of steps. -/
def GerenciadorFilas.executar (g : GerenciadorFilas) : List Passo → GerenciadorFilas
  | [] => g
  | p :: ps => (g.aplicar p).executar ps

/-- An empty queue manager with the default worker cap. -/
def filasIniciais : GerenciadorFilas :=
  { max_concurrent := 3 }

/-! ### Concrete states and traces used for counterexamples and witnesses -/

/-- A descriptor with the dataclass-default performance fields. -/
def metaExemplo (nome : String) (memoria : ℚ) (prioridade : ℕ) : MetadadosModelo :=
  { nome := nome, caminho := "models/" ++ nome, tipo_modelo := "llm",
    memoria_necessaria_mb := memoria, versao := "1.0", prioridade := prioridade,
    dependencias := [] }

/-- Registry holding one model `modelo-a` (2048 MB, priority 8). -/
def regC5a : RegistroModelos :=
  RegistroModelos.registrar_modelo {} 0 (metaExemplo "modelo-a" 2048 8)

/-- `regC5a` after `modelo-a` was transitioned to `CARREGADO` on GPU 0 with
2048 MB allocated (unwrapping the `Except`, which succeeds here). -/
def regC5b : RegistroModelos :=
  match regC5a.atualizar_status 1 "modelo-a" StatusModelo.carregado (some 0) 2048 none with
  | Except.ok reg => reg
  | Except.error _ => regC5a

/-- A re-registration descriptor for `modelo-a` with different static data. -/
def metaC5nova : MetadadosModelo := metaExemplo "modelo-a" 4096 9

/-- Registry holding one model `conhecido` (2048 MB). -/
def regC8 : RegistroModelos :=
  RegistroModelos.registrar_modelo {} 0 (metaExemplo "conhecido" 2048 5)

/-- A scheduling operation with the given priority and creation time. -/
def opExemplo (id : String) (prioridade : ℕ) (ts : ℤ) : OperacaoModelo :=
  { id_operacao := id, nome_modelo := id, tipo := TipoOperacao.carregar,
    prioridade := prioridade, timestamp_criacao := ts }

/-- The spec's example: priorities [1, 10, 5, 10, 1] enqueued in creation
order 0, 1, 2, 3, 4. -/
def opsC2 : List OperacaoModelo :=
  [opExemplo "o1" 1 0, opExemplo "o2" 10 1, opExemplo "o3" 5 2,
   opExemplo "o4" 10 3, opExemplo "o5" 1 4]

/-- A pending request that will be cancelled. -/
def reqC1 : Requisicao := { id := "r1", prioridade := 5, timestamp_criacao := 0 }

/-- A request whose timeout (300 s) elapses while it is processing. -/
def reqC1b : Requisicao := { id := "r2", prioridade := 5, timestamp_criacao := 0, timeout := 300 }

/-- Submit `r1`, then cancel it. -/
def passosC1a : List Passo := [Passo.adicionar reqC1, Passo.cancelar 1 "r1"]

/-- ... then one dispatcher iteration with resources available. -/
def passosC1b : List Passo := passosC1a ++ [Passo.dispatch 2 true]

/-- Submit `r2`, start it, then run the timeout sweep after its deadline. -/
def passosC1c : List Passo :=
  [Passo.adicionar reqC1b, Passo.dispatch 1 true, Passo.timeouts 302]

/-- ... then the worker finishing successfully. -/
def passosC1d : List Passo := passosC1c ++ [Passo.concluir 303 "r2" true none]

/-- A low-priority waiting request, created first. -/
def raC4 : Requisicao := { id := "a", prioridade := 1, timestamp_criacao := 0 }

/-- A critical-priority waiting request, created second. -/
def rbC4 : Requisicao := { id := "b", prioridade := 10, timestamp_criacao := 1 }

/-- One worker slot; both requests get parked (no resources), then one
waiting-queue sweep runs with resources available for everyone. -/
def gC4 : GerenciadorFilas :=
  GerenciadorFilas.executar { max_concurrent := 1 }
    [Passo.adicionar raC4, Passo.adicionar rbC4,
     Passo.dispatch 2 false, Passo.dispatch 3 false,
     Passo.aguardandoSweep 4 (fun _ => true)]

/-- A `BAIXA` (1) priority request created at time 0. -/
def reqC3 : Requisicao := { id := "c3", prioridade := 1, timestamp_criacao := 0 }

/-- A queue manager with `reqC3` parked in the waiting list. -/
def gC3 : GerenciadorFilas :=
  { fila_aguardando_recurso := ["c3"],
    historico_requisicoes :=
      [("c3", { reqC3 with status := StatusRequisicao.aguardando_recurso })] }

/-- A registry with three loaded models: two evictable (priority < 8, one
older than the other) and one protected (priority ≥ 8). -/
def regC7 : RegistroModelos :=
  { modelos :=
      [("velho", { metaExemplo "velho" 1000 3 with ultima_utilizacao := 10 }),
       ("novo", { metaExemplo "novo" 1000 5 with ultima_utilizacao := 50 }),
       ("critico", { metaExemplo "critico" 1000 9 with ultima_utilizacao := 5 })],
    status_modelos :=
      [("velho", { status := StatusModelo.carregado, timestamp := 0 }),
       ("novo", { status := StatusModelo.carregado, timestamp := 0 }),
       ("critico", { status := StatusModelo.carregado, timestamp := 0 })],
    gpu_alocacoes := [("velho", 0), ("novo", 0), ("critico", 0)] }

/-- A registry with one model for the usage-statistics witnesses. -/
def regC6 : RegistroModelos :=
  RegistroModelos.registrar_modelo {} 0 (metaExemplo "uso" 2048 5)

/-- Three recorded uses: a success with a load time, a failure, a success. -/
def usosC9 : List (ℤ × ℚ × Bool) := [(1, 2, true), (2, 0, false), (3, 1, true)]

/-! ## Lemmas about the dict model -/

theorem lookup_cons_self {α : Type} {k : String} (v : α) (l : List (String × α)) :
    ((k, v) :: l).lookup k = some v := by
  simp [List.lookup]

theorem lookup_cons_ne {α : Type} {i k : String} (v : α) (l : List (String × α))
    (h : i ≠ k) : ((k, v) :: l).lookup i = l.lookup i := by
  simp [List.lookup, beq_eq_false_iff_ne.mpr h]

theorem lookup_append_single_ne {α : Type} {i k : String} (v : α)
    (l : List (String × α)) (h : i ≠ k) : (l ++ [(k, v)]).lookup i = l.lookup i := by
  induction l with
  | nil => simpa using lookup_cons_ne v [] h
  | cons a t ih =>
    by_cases hia : i = a.1
    · subst hia
      simp [List.lookup]
    · obtain ⟨a1, a2⟩ := a
      simp only [List.cons_append]
      rw [lookup_cons_ne a2 _ hia, lookup_cons_ne a2 t hia, ih]

theorem lookup_map_set {α : Type} (k : String) (v : α) (l : List (String × α)) (i : String) :
    (l.map (fun p => if p.1 = k then (k, v) else p)).lookup i
      = if i = k then (l.lookup i).map (fun _ => v) else l.lookup i := by
  induction l with
  | nil => by_cases hik : i = k <;> simp [hik]
  | cons a t ih =>
    obtain ⟨a1, a2⟩ := a
    simp only [List.map_cons]
    by_cases hak : a1 = k
    · rw [if_pos hak]
      by_cases hik : i = k
      · simp [List.lookup, hik, hak]
      · simp [List.lookup, beq_eq_false_iff_ne.mpr hik, hak, hik, ih]
    · rw [if_neg hak]
      by_cases hia : i = a1
      · simp [List.lookup, hia, hak]
      · simp [List.lookup, beq_eq_false_iff_ne.mpr hia, ih]

theorem lookup_map_upd {α : Type} (k : String) (f : α → α) (l : List (String × α)) (i : String) :
    (l.map (fun p => if p.1 = k then (p.1, f p.2) else p)).lookup i
      = if i = k then (l.lookup i).map f else l.lookup i := by
  induction l with
  | nil => by_cases hik : i = k <;> simp [hik]
  | cons a t ih =>
    obtain ⟨a1, a2⟩ := a
    simp only [List.map_cons]
    by_cases hak : a1 = k
    · rw [if_pos hak]
      by_cases hik : i = k
      · simp [List.lookup, hik, hak]
      · simp [List.lookup, beq_eq_false_iff_ne.mpr hik, hak, hik, ih]
    · rw [if_neg hak]
      by_cases hia : i = a1
      · simp [List.lookup, hia, hak]
      · simp [List.lookup, beq_eq_false_iff_ne.mpr hia, ih]

theorem isSome_of_any_true {α : Type} {l : List (String × α)} {k : String}
    (h : l.any (fun p => decide (p.1 = k)) = true) : (l.lookup k).isSome = true := by
  induction l with
  | nil => simp at h
  | cons a t ih =>
    obtain ⟨a1, a2⟩ := a
    by_cases hk : k = a1
    · subst hk
      rw [lookup_cons_self]
      rfl
    · rw [lookup_cons_ne a2 t hk]
      simp only [List.any_cons, Bool.or_eq_true, decide_eq_true_eq] at h
      rcases h with h | h
      · exact absurd h.symm hk
      · exact ih h

theorem lookup_none_of_any_false {α : Type} {l : List (String × α)} {k : String}
    (h : l.any (fun p => decide (p.1 = k)) = false) : l.lookup k = none := by
  induction l with
  | nil => rfl
  | cons a t ih =>
    obtain ⟨a1, a2⟩ := a
    simp only [List.any_cons, Bool.or_eq_false_iff, decide_eq_false_iff_not] at h
    rw [lookup_cons_ne a2 t (fun hk => h.1 hk.symm)]
    exact ih h.2

theorem lookup_append_single_self {α : Type} {k : String} (v : α) (l : List (String × α))
    (hnone : l.lookup k = none) : (l ++ [(k, v)]).lookup k = some v := by
  induction l with
  | nil => simp [List.lookup]
  | cons a t ih =>
    obtain ⟨a1, a2⟩ := a
    by_cases hk : k = a1
    · subst hk
      rw [lookup_cons_self] at hnone
      exact absurd hnone (by simp)
    · rw [List.cons_append, lookup_cons_ne a2 _ hk]
      rw [lookup_cons_ne a2 t hk] at hnone
      exact ih hnone

theorem lookup_dictSet_self {α : Type} (k : String) (v : α) (l : List (String × α)) :
    (dictSet k v l).lookup k = some v := by
  unfold dictSet
  by_cases h : l.any (fun p => decide (p.1 = k)) = true
  · rw [if_pos h, lookup_map_set, if_pos rfl]
    rcases Option.isSome_iff_exists.mp (isSome_of_any_true h) with ⟨w, hw⟩
    simp [hw]
  · rw [if_neg h]
    exact lookup_append_single_self v l (lookup_none_of_any_false (Bool.eq_false_iff.mpr h))

theorem lookup_dictSet_ne {α : Type} {i k : String} (v : α) (l : List (String × α))
    (h : i ≠ k) : (dictSet k v l).lookup i = l.lookup i := by
  unfold dictSet
  by_cases ha : l.any (fun p => decide (p.1 = k)) = true
  · rw [if_pos ha, lookup_map_set, if_neg h]
  · rw [if_neg ha, lookup_append_single_ne v l h]

/-! ## The success-rate and usage-statistics update (C5, C6, C8, C9) -/

theorem registrar_uso_taxa (m : MetadadosModelo) (agora : ℤ) (tempo : ℚ) (sucesso : Bool) :
    (m.registrar_uso agora tempo sucesso).taxa_sucesso
      = if sucesso then min 100 (m.taxa_sucesso + 1) else max 0 (m.taxa_sucesso - 5) := by
  cases sucesso <;>
    by_cases ht : (0 : ℚ) < tempo <;>
      by_cases hz : m.tempo_medio_carregamento = 0 <;>
        simp [MetadadosModelo.registrar_uso, ht, hz]

theorem registrar_uso_ultima (m : MetadadosModelo) (agora : ℤ) (tempo : ℚ) (sucesso : Bool) :
    (m.registrar_uso agora tempo sucesso).ultima_utilizacao = agora := by
  cases sucesso <;>
    by_cases ht : (0 : ℚ) < tempo <;>
      by_cases hz : m.tempo_medio_carregamento = 0 <;>
        simp [MetadadosModelo.registrar_uso, ht, hz]

theorem registrar_uso_total (m : MetadadosModelo) (agora : ℤ) (tempo : ℚ) (sucesso : Bool) :
    (m.registrar_uso agora tempo sucesso).total_utilizacoes = m.total_utilizacoes + 1 := by
  cases sucesso <;>
    by_cases ht : (0 : ℚ) < tempo <;>
      by_cases hz : m.tempo_medio_carregamento = 0 <;>
        simp [MetadadosModelo.registrar_uso, ht, hz]

theorem registrar_uso_tempo_medio (m : MetadadosModelo) (agora : ℤ) (tempo : ℚ) (sucesso : Bool)
    (ht : 0 < tempo) (hm : m.tempo_medio_carregamento ≠ 0) :
    (m.registrar_uso agora tempo sucesso).tempo_medio_carregamento
      = m.tempo_medio_carregamento * (0.8 : ℚ) + tempo * (0.2 : ℚ) := by
  cases sucesso <;> simp [MetadadosModelo.registrar_uso, ht, hm]

/-- C5 counterexample: with `modelo-a` live as `CARREGADO` on GPU 0,
re-registering a new descriptor for the same name does overwrite the
descriptor, but it also resets the live status record to `DESCARREGADO` with
a fresh timestamp — the status record does not stay unchanged. -/
theorem c5_contraexemplo :
    (regC5b.status_modelos.lookup "modelo-a").map StatusDetalhado.status
        = some StatusModelo.carregado ∧
    (regC5b.registrar_modelo 2 metaC5nova).modelos.lookup "modelo-a" = some metaC5nova ∧
    (regC5b.registrar_modelo 2 metaC5nova).status_modelos.lookup "modelo-a"
        = some { status := StatusModelo.descarregado, timestamp := 2 } ∧
    (regC5b.registrar_modelo 2 metaC5nova).status_modelos.lookup "modelo-a"
        ≠ regC5b.status_modelos.lookup "modelo-a" := by
  decide

/-- C5 (amended): `registrar_modelo` stores the new descriptor under its name,
resets that name's live status record to `DESCARREGADO` with the registration
timestamp, and leaves every other model's descriptor and status record
unchanged. -/
theorem c5_reregistro_sobrescreve_status (reg : RegistroModelos) (agora : ℤ)
    (m : MetadadosModelo) :
    (reg.registrar_modelo agora m).modelos.lookup m.nome = some m ∧
    (reg.registrar_modelo agora m).status_modelos.lookup m.nome
      = some { status := StatusModelo.descarregado, timestamp := agora } ∧
    ∀ outro : String, outro ≠ m.nome →
      (reg.registrar_modelo agora m).modelos.lookup outro = reg.modelos.lookup outro ∧
      (reg.registrar_modelo agora m).status_modelos.lookup outro
        = reg.status_modelos.lookup outro := by
  unfold RegistroModelos.registrar_modelo
  exact ⟨lookup_dictSet_self _ _ _, lookup_dictSet_self _ _ _,
    fun outro ho => ⟨lookup_dictSet_ne _ _ ho, lookup_dictSet_ne _ _ ho⟩⟩

/-- C6 counterexample: at success rate 100, one recorded failure yields 95
(the additive −5 update of the code), not 80 (the 0.8/0.2 exponential moving
average toward the failure sample 0 that the claim states). -/
theorem c6_contraexemplo :
    ((metaExemplo "m" 2048 5).registrar_uso 10 0 false).taxa_sucesso = 95 ∧
    taxaSucessoMediaMovel (metaExemplo "m" 2048 5).taxa_sucesso 0 = 80 ∧
    (95 : ℚ) ≠ 80 := by
  refine ⟨?_, ?_, by norm_num⟩
  · rw [registrar_uso_taxa]
    norm_num [metaExemplo]
  · norm_num [taxaSucessoMediaMovel, metaExemplo]

/-- C6 (amended): `registrar_utilizacao` replaces the model's metadata by
`registrar_uso`, which sets the last-used time, increments the use count,
updates the success rate additively (+1 capped at 100 on success, −5 floored
at 0 on failure — not as an exponential moving average), and folds a positive
load duration into the 0.8 old / 0.2 new moving average of the load time. -/
theorem c6_estatisticas_de_uso (reg : RegistroModelos) (agora : ℤ) (tempo : ℚ) (nome : String)
    (sucesso : Bool) (m : MetadadosModelo) (h : reg.modelos.lookup nome = some m) :
    (reg.registrar_utilizacao agora nome tempo sucesso).modelos.lookup nome
      = some (m.registrar_uso agora tempo sucesso) ∧
    (m.registrar_uso agora tempo sucesso).ultima_utilizacao = agora ∧
    (m.registrar_uso agora tempo sucesso).total_utilizacoes = m.total_utilizacoes + 1 ∧
    (m.registrar_uso agora tempo sucesso).taxa_sucesso
      = (if sucesso then min 100 (m.taxa_sucesso + 1) else max 0 (m.taxa_sucesso - 5)) ∧
    (0 < tempo → m.tempo_medio_carregamento ≠ 0 →
      (m.registrar_uso agora tempo sucesso).tempo_medio_carregamento
        = m.tempo_medio_carregamento * (0.8 : ℚ) + tempo * (0.2 : ℚ)) := by
  refine ⟨?_, registrar_uso_ultima m agora tempo sucesso,
    registrar_uso_total m agora tempo sucesso, registrar_uso_taxa m agora tempo sucesso,
    fun ht hm => registrar_uso_tempo_medio m agora tempo sucesso ht hm⟩
  unfold RegistroModelos.registrar_utilizacao
  simp only [h]
  exact lookup_dictSet_self _ _ _

/-- C6 witness: the amended statement at the one-model registry `regC6`. -/
theorem c6_estatisticas_witness :
    (regC6.registrar_utilizacao 5 "uso" 2 true).modelos.lookup "uso"
      = some ((metaExemplo "uso" 2048 5).registrar_uso 5 2 true) ∧
    ((metaExemplo "uso" 2048 5).registrar_uso 5 2 true).ultima_utilizacao = 5 ∧
    ((metaExemplo "uso" 2048 5).registrar_uso 5 2 true).total_utilizacoes
      = (metaExemplo "uso" 2048 5).total_utilizacoes + 1 ∧
    ((metaExemplo "uso" 2048 5).registrar_uso 5 2 true).taxa_sucesso
      = (if true then min 100 ((metaExemplo "uso" 2048 5).taxa_sucesso + 1)
         else max 0 ((metaExemplo "uso" 2048 5).taxa_sucesso - 5)) ∧
    ((0 : ℚ) < 2 → (metaExemplo "uso" 2048 5).tempo_medio_carregamento ≠ 0 →
      ((metaExemplo "uso" 2048 5).registrar_uso 5 2 true).tempo_medio_carregamento
        = (metaExemplo "uso" 2048 5).tempo_medio_carregamento * (0.8 : ℚ) + 2 * (0.2 : ℚ)) :=
  c6_estatisticas_de_uso regC6 5 2 "uso" true (metaExemplo "uso" 2048 5) (by decide)

theorem calcular_foldl (reg : RegistroModelos) :
    ∀ (nomes : List String) (a : ℚ),
      nomes.foldl (fun total nome =>
        match reg.obter_metadados nome with
        | some modelo => total + modelo.memoria_necessaria_mb
        | none => total) a
      = a + ((nomes.filterMap reg.obter_metadados).map MetadadosModelo.memoria_necessaria_mb).sum := by
  intro nomes
  induction nomes with
  | nil => intro a; simp
  | cons n t ih =>
    intro a
    cases hn : reg.obter_metadados n with
    | none => simp [List.foldl, hn, ih]
    | some m => simp [List.foldl, hn, ih, add_assoc]

theorem filterMap_filter_isSome {α β : Type} (f : α → Option β) (l : List α) :
    (l.filter (fun x => (f x).isSome)).filterMap f = l.filterMap f := by
  induction l with
  | nil => rfl
  | cons x t ih =>
    cases hx : f x with
    | none => simp [List.filter, hx, ih]
    | some b => simp [List.filter, hx, ih]

/-- C8 counterexample: with only `conhecido` (2048 MB) registered, the total
for `[conhecido, fantasma]` is 2048 — the unknown name `fantasma` is
silently treated as contributing 0 MB, and no `NotFound` is reported. -/
theorem c8_contraexemplo :
    regC8.obter_metadados "fantasma" = none ∧
    regC8.calcular_memoria_total_necessaria ["conhecido", "fantasma"] = 2048 ∧
    regC8.calcular_memoria_total_necessaria ["conhecido", "fantasma"]
      = regC8.calcular_memoria_total_necessaria ["conhecido"] := by
  refine ⟨by decide, ?_, ?_⟩ <;>
    norm_num [RegistroModelos.calcular_memoria_total_necessaria,
      RegistroModelos.obter_metadados, regC8, RegistroModelos.registrar_modelo,
      dictSet, metaExemplo, List.lookup,
      show (("fantasma" == "conhecido") = false) by decide]

/-- C8 (amended): `calcular_memoria_total_necessaria` returns the sum of the
required memory of the names that resolve in the catalog; names that do not
resolve contribute 0 and are silently dropped (no error is reported — the
function cannot fail). -/
theorem c8_soma_ignora_desconhecidos (reg : RegistroModelos) (nomes : List String) :
    reg.calcular_memoria_total_necessaria nomes
      = ((nomes.filterMap reg.obter_metadados).map MetadadosModelo.memoria_necessaria_mb).sum ∧
    reg.calcular_memoria_total_necessaria nomes
      = reg.calcular_memoria_total_necessaria
          (nomes.filter (fun n => (reg.obter_metadados n).isSome)) := by
  constructor
  · unfold RegistroModelos.calcular_memoria_total_necessaria
    rw [calcular_foldl]
    exact zero_add _
  · unfold RegistroModelos.calcular_memoria_total_necessaria
    rw [calcular_foldl, calcular_foldl, filterMap_filter_isSome]

theorem registrar_uso_taxa_limites (m : MetadadosModelo) (agora : ℤ) (tempo : ℚ) (sucesso : Bool)
    (h0 : 0 ≤ m.taxa_sucesso) (h1 : m.taxa_sucesso ≤ 100) :
    0 ≤ (m.registrar_uso agora tempo sucesso).taxa_sucesso ∧
    (m.registrar_uso agora tempo sucesso).taxa_sucesso ≤ 100 := by
  rw [registrar_uso_taxa]
  cases sucesso
  · rw [if_neg Bool.false_ne_true]
    exact ⟨le_max_left _ _, max_le (by norm_num) (by linarith)⟩
  · rw [if_pos rfl]
    exact ⟨le_min (by norm_num) (by linarith), min_le_left _ _⟩

/-- C9: the stored success rate starts at 100 (the dataclass default) and
after any sequence of recorded uses stays within [0, 100]: each failure
subtracts 5 but is floored at 0, each success adds 1 but is capped at 100. -/
theorem c9_taxa_sucesso_limitada (usos : List (ℤ × ℚ × Bool)) (m : MetadadosModelo)
    (h0 : 0 ≤ m.taxa_sucesso) (h1 : m.taxa_sucesso ≤ 100) :
    (metaExemplo "qualquer" 1 1).taxa_sucesso = 100 ∧
    0 ≤ (usos.foldl (fun acc u => acc.registrar_uso u.1 u.2.1 u.2.2) m).taxa_sucesso ∧
    (usos.foldl (fun acc u => acc.registrar_uso u.1 u.2.1 u.2.2) m).taxa_sucesso ≤ 100 := by
  refine ⟨rfl, ?_⟩
  induction usos generalizing m with
  | nil => exact ⟨h0, h1⟩
  | cons u t ih =>
    simp only [List.foldl]
    have hb := registrar_uso_taxa_limites m u.1 u.2.1 u.2.2 h0 h1
    exact ih _ hb.1 hb.2

/-- C9 witness: the bound at a concrete metadata record and use sequence. -/
theorem c9_taxa_sucesso_witness :
    (metaExemplo "qualquer" 1 1).taxa_sucesso = 100 ∧
    0 ≤ (usosC9.foldl (fun acc u => acc.registrar_uso u.1 u.2.1 u.2.2)
          (metaExemplo "uso9" 1024 5)).taxa_sucesso ∧
    (usosC9.foldl (fun acc u => acc.registrar_uso u.1 u.2.1 u.2.2)
          (metaExemplo "uso9" 1024 5)).taxa_sucesso ≤ 100 :=
  c9_taxa_sucesso_limitada usosC9 (metaExemplo "uso9" 1024 5) (by decide) (by decide)

/-! ## The request history table and the aging sweep (C3, C10) -/

theorem lookup_setReq (g : GerenciadorFilas) (id : String) (f : Requisicao → Requisicao)
    (i : String) :
    (g.setReq id f).historico_requisicoes.lookup i
      = if i = id then (g.historico_requisicoes.lookup i).map f
        else g.historico_requisicoes.lookup i := by
  unfold GerenciadorFilas.setReq
  exact lookup_map_upd id f g.historico_requisicoes i

theorem lookup_foldl_setReq_not_mem (agora : ℤ) (l : List String) (i : String)
    (h : i ∉ l) :
    ∀ g : GerenciadorFilas,
      ((l.foldl (fun g1 id => g1.setReq id (agingAtualiza agora)) g).historico_requisicoes).lookup i
        = g.historico_requisicoes.lookup i := by
  induction l with
  | nil => intro g; rfl
  | cons x t ih =>
    intro g
    have hx : i ≠ x := fun he => h (he ▸ List.mem_cons_self x t)
    rw [List.foldl_cons, ih (fun ht => h (List.mem_cons_of_mem x ht)), lookup_setReq, if_neg hx]

theorem lookup_foldl_setReq_mem (agora : ℤ) (i : String) :
    ∀ l : List String, l.Nodup → i ∈ l → ∀ g : GerenciadorFilas,
      ((l.foldl (fun g1 id => g1.setReq id (agingAtualiza agora)) g).historico_requisicoes).lookup i
        = (g.historico_requisicoes.lookup i).map (agingAtualiza agora) := by
  intro l
  induction l with
  | nil => intro _ hi; cases hi
  | cons x t ih =>
    intro hnd hi g
    rw [List.foldl_cons]
    by_cases hix : i = x
    · subst hix
      have hnotin : i ∉ t := (List.nodup_cons.mp hnd).1
      rw [lookup_foldl_setReq_not_mem agora t i hnotin, lookup_setReq, if_pos rfl]
    · have hit : i ∈ t := List.mem_of_ne_of_mem hix hi
      rw [ih (List.nodup_cons.mp hnd).2 hit, lookup_setReq, if_neg hix]

/-- C3 counterexample: a `BAIXA` (value 1) request that has waited 301 s is
raised by the sweep straight to `ALTA` (value 8) — not to `NORMAL` (5), the
band one step above `BAIXA` in the declared ladder. -/
theorem c3_contraexemplo :
    (agingAtualiza 301 reqC3).prioridade = 8 ∧
    proximaBanda reqC3.prioridade = 5 ∧
    (8 : ℕ) ≠ 5 := by
  decide

/-- C3 (amended): the policy sweep applies the aging rule to every waiting
request: a request that has waited more than 300 s and whose priority value
is below `ALTA` (8) has its priority set to `ALTA` — `BAIXA` jumps straight
to `ALTA`, not one band — and the raise happens at most once: a later sweep
leaves the raised request unchanged, so the priority never exceeds `ALTA`
through aging no matter how many threshold intervals are crossed. -/
theorem c3_envelhecimento_salta_para_alta (agora agora2 : ℤ) (g : GerenciadorFilas)
    (i : String) (hnd : g.fila_aguardando_recurso.Nodup)
    (hi : i ∈ g.fila_aguardando_recurso) :
    (g.otimizar_filas agora).obter_status_requisicao i
      = (g.obter_status_requisicao i).map (agingAtualiza agora) ∧
    (∀ r : Requisicao, agora - r.timestamp_criacao > 300 → r.prioridade < 8 →
      (agingAtualiza agora r).prioridade = 8 ∧
      agingAtualiza agora2 (agingAtualiza agora r) = agingAtualiza agora r) ∧
    (∀ r : Requisicao, (agingAtualiza agora r).prioridade = r.prioridade ∨
      ((agingAtualiza agora r).prioridade = 8 ∧ r.prioridade < 8)) := by
  refine ⟨?_, ?_, ?_⟩
  · unfold GerenciadorFilas.otimizar_filas GerenciadorFilas.obter_status_requisicao
    exact lookup_foldl_setReq_mem agora i g.fila_aguardando_recurso hnd hi g
  · intro r hw hp
    constructor <;> simp [agingAtualiza, hw, hp]
  · intro r
    by_cases hw : agora - r.timestamp_criacao > 300
    · by_cases hp : r.prioridade < 8
      · right
        simp [agingAtualiza, hw, hp]
      · left
        simp [agingAtualiza, hw, hp]
    · left
      simp [agingAtualiza, hw]

/-- C3 witness: the amended statement at the one-request waiting list `gC3`. -/
theorem c3_envelhecimento_witness :
    (gC3.otimizar_filas 301).obter_status_requisicao "c3"
      = (gC3.obter_status_requisicao "c3").map (agingAtualiza 301) ∧
    (∀ r : Requisicao, (301 : ℤ) - r.timestamp_criacao > 300 → r.prioridade < 8 →
      (agingAtualiza 301 r).prioridade = 8 ∧
      agingAtualiza 400 (agingAtualiza 301 r) = agingAtualiza 301 r) ∧
    (∀ r : Requisicao, (agingAtualiza 301 r).prioridade = r.prioridade ∨
      ((agingAtualiza 301 r).prioridade = 8 ∧ r.prioridade < 8)) :=
  c3_envelhecimento_salta_para_alta 301 400 gC3 "c3" (by decide) (by decide)

theorem isSome_lookup_dictSet {α : Type} {l : List (String × α)} {i : String} (k : String)
    (v : α) (h : (l.lookup i).isSome = true) : ((dictSet k v l).lookup i).isSome = true := by
  by_cases hik : i = k
  · subst hik
    rw [lookup_dictSet_self]
    rfl
  · rw [lookup_dictSet_ne v l hik]
    exact h

theorem isSome_lookup_setReq (g : GerenciadorFilas) (id : String)
    (f : Requisicao → Requisicao) (i : String) :
    ((g.setReq id f).historico_requisicoes.lookup i).isSome
      = (g.historico_requisicoes.lookup i).isSome := by
  rw [lookup_setReq]
  by_cases hik : i = id
  · rw [if_pos hik, Option.isSome_map']
  · rw [if_neg hik]

theorem isSome_foldl_timeouts (agora : ℤ) (l : List String) (i : String) :
    ∀ g : GerenciadorFilas,
      ((l.foldl (fun g1 id =>
          match g1.historico_requisicoes.lookup id with
          | none => g1
          | some r =>
            if agora - r.timestamp_criacao > r.timeout then
              g1.setReq id (fun q =>
                { q with status := StatusRequisicao.timeout, timestamp_conclusao := some agora })
            else g1) g).historico_requisicoes.lookup i).isSome
        = (g.historico_requisicoes.lookup i).isSome := by
  induction l with
  | nil => intro g; rfl
  | cons x t ih =>
    intro g
    rw [List.foldl_cons, ih]
    cases hx : g.historico_requisicoes.lookup x with
    | none => simp only [hx]
    | some r =>
      by_cases hto : agora - r.timestamp_criacao > r.timeout
      · simp only [hx, if_pos hto, isSome_lookup_setReq]
      · simp only [hx, if_neg hto]

theorem isSome_foldl_aging (agora : ℤ) (l : List String) (i : String) :
    ∀ g : GerenciadorFilas,
      ((l.foldl (fun g1 id => g1.setReq id (agingAtualiza agora)) g).historico_requisicoes.lookup i).isSome
        = (g.historico_requisicoes.lookup i).isSome := by
  induction l with
  | nil => intro g; rfl
  | cons x t ih =>
    intro g
    rw [List.foldl_cons, ih, isSome_lookup_setReq]

theorem isSome_admitirAguardando (agora : ℤ) (recursos : String → Bool) (i : String) :
    ∀ (l : List Requisicao) (g : GerenciadorFilas),
      ((GerenciadorFilas.admitirAguardando agora recursos g l).historico_requisicoes.lookup i).isSome
        = (g.historico_requisicoes.lookup i).isSome := by
  intro l
  induction l with
  | nil => intro g; rfl
  | cons r t ih =>
    intro g
    unfold GerenciadorFilas.admitirAguardando
    by_cases hcap : g.max_concurrent ≤ g.processadores_ativos
    · rw [if_pos hcap]
    · rw [if_neg hcap]
      by_cases hrec : recursos r.id = true
      · rw [if_pos hrec, ih]
        unfold GerenciadorFilas.iniciar_processamento
        rw [isSome_lookup_setReq]
      · rw [if_neg hrec, ih]

theorem historico_popPendente (g : GerenciadorFilas) (r : Requisicao) (g1 : GerenciadorFilas)
    (h : g.popPendente = some (r, g1)) :
    g1.historico_requisicoes = g.historico_requisicoes := by
  unfold GerenciadorFilas.popPendente at h
  cases hme : extractMin Requisicao.lt
      (g.fila_pendentes.filterMap (fun i => g.historico_requisicoes.lookup i)) with
  | none =>
    simp only [hme] at h
    exact Option.noConfusion h
  | some pr =>
    obtain ⟨x, rest⟩ := pr
    simp only [hme, Option.some_inj, Prod.mk.injEq] at h
    rw [← h.2]

theorem isSome_aplicar (g : GerenciadorFilas) (p : Passo) (i : String)
    (h : (g.obter_status_requisicao i).isSome = true) :
    ((g.aplicar p).obter_status_requisicao i).isSome = true := by
  unfold GerenciadorFilas.obter_status_requisicao at h ⊢
  cases p with
  | adicionar r =>
    show (((g.adicionar_requisicao r).historico_requisicoes).lookup i).isSome = true
    unfold GerenciadorFilas.adicionar_requisicao
    exact isSome_lookup_dictSet r.id r h
  | aguardandoSweep agora recursos =>
    show (((g.processar_fila_aguardando agora recursos).historico_requisicoes).lookup i).isSome
      = true
    unfold GerenciadorFilas.processar_fila_aguardando
    rw [isSome_admitirAguardando]
    exact h
  | dispatch agora recursos =>
    show (((g.dispatchStep agora recursos).historico_requisicoes).lookup i).isSome = true
    unfold GerenciadorFilas.dispatchStep
    split
    · exact h
    · split
      · exact h
      · rename_i r g1 hp
        have hg1 := historico_popPendente g r g1 hp
        split
        · have he : ((g1.iniciar_processamento agora r.id).historico_requisicoes.lookup i).isSome
              = (g1.historico_requisicoes.lookup i).isSome := by
            unfold GerenciadorFilas.iniciar_processamento
            exact isSome_lookup_setReq _ r.id _ i
          rw [he, hg1]
          exact h
        · have he : (((g1.setReq r.id (fun q =>
                { q with status := StatusRequisicao.aguardando_recurso })).historico_requisicoes).lookup i).isSome
              = (g1.historico_requisicoes.lookup i).isSome :=
            isSome_lookup_setReq g1 r.id _ i
          exact he.trans (by rw [hg1]; exact h)
  | cancelar agora id =>
    show ((((g.cancelar_requisicao agora id).1).historico_requisicoes).lookup i).isSome = true
    unfold GerenciadorFilas.cancelar_requisicao
    split
    · exact h
    · split
      · exact (isSome_lookup_setReq g id (fun q =>
          { q with status := StatusRequisicao.cancelada,
                   timestamp_conclusao := some agora }) i).trans h
      · exact h
  | timeouts agora =>
    show (((g.verificar_timeouts agora).historico_requisicoes).lookup i).isSome = true
    unfold GerenciadorFilas.verificar_timeouts
    rw [isSome_foldl_timeouts]
    exact h
  | concluir agora id sucesso detalhe =>
    show (((g.concluir_processamento agora id sucesso detalhe).historico_requisicoes).lookup i).isSome
      = true
    unfold GerenciadorFilas.concluir_processamento
    split
    · exact (isSome_lookup_setReq g id (fun r =>
        if sucesso then
          { r with status := StatusRequisicao.concluida, timestamp_conclusao := some agora,
                   progresso := 1 }
        else
          { r with status := StatusRequisicao.erro, erro := detalhe,
                   timestamp_conclusao := some agora }) i).trans h
    · exact h
  | aging agora =>
    show (((g.otimizar_filas agora).historico_requisicoes).lookup i).isSome = true
    unfold GerenciadorFilas.otimizar_filas
    rw [isSome_foldl_aging]
    exact h

theorem isSome_executar (i : String) :
    ∀ (ps : List Passo) (g : GerenciadorFilas),
      (g.obter_status_requisicao i).isSome = true →
      ((g.executar ps).obter_status_requisicao i).isSome = true := by
  intro ps
  induction ps with
  | nil => intro g h; exact h
  | cons p t ih =>
    intro g h
    exact ih _ (isSome_aplicar g p i h)

/-- C10: once a request is submitted, `obter_status_requisicao` finds its
record after any further sequence of steps — no public operation or
background loop ever removes an entry from `historico_requisicoes`. -/
theorem c10_historia_permanente (g : GerenciadorFilas) (r : Requisicao) (ps : List Passo) :
    (((g.adicionar_requisicao r).executar ps).obter_status_requisicao r.id).isSome = true ∧
    ∀ (g2 : GerenciadorFilas) (p : Passo) (i : String),
      (g2.obter_status_requisicao i).isSome = true →
      ((g2.aplicar p).obter_status_requisicao i).isSome = true := by
  constructor
  · apply isSome_executar
    unfold GerenciadorFilas.obter_status_requisicao GerenciadorFilas.adicionar_requisicao
    rw [lookup_dictSet_self]
    rfl
  · exact fun g2 p i h => isSome_aplicar g2 p i h

/-- C1: the declared-terminal states are left again by real steps of the code.
A `PENDENTE` request that is cancelled (`CANCELADA`, terminal) is still in
the pending priority queue; the next dispatcher iteration pops it without
consulting its status and moves it to `PROCESSANDO`.  Likewise a
`PROCESSANDO` request whose deadline passes is marked `TIMEOUT` (terminal) by
the sweep, and its still-running worker later overwrites that with
`CONCLUIDA`. -/
theorem c1_estado_terminal_reaberto :
    ((filasIniciais.executar passosC1a).obter_status_requisicao "r1").map Requisicao.status
      = some StatusRequisicao.cancelada ∧
    StatusRequisicao.cancelada.terminal = true ∧
    ((filasIniciais.executar passosC1b).obter_status_requisicao "r1").map Requisicao.status
      = some StatusRequisicao.processando ∧
    ((filasIniciais.executar passosC1c).obter_status_requisicao "r2").map Requisicao.status
      = some StatusRequisicao.timeout ∧
    StatusRequisicao.timeout.terminal = true ∧
    ((filasIniciais.executar passosC1d).obter_status_requisicao "r2").map Requisicao.status
      = some StatusRequisicao.concluida := by
  decide

/-! ## The scheduler heap drains in priority order (C2) -/

theorem extractMin_eq_none {α : Type} (lt : α → α → Bool) :
    ∀ {l : List α}, extractMin lt l = none → l = [] := by
  intro l h
  cases l with
  | nil => rfl
  | cons a t =>
    unfold extractMin at h
    cases hme : extractMin lt t with
    | none =>
      simp only [hme] at h
      exact Option.noConfusion h
    | some pr =>
      obtain ⟨m, r⟩ := pr
      simp only [hme] at h
      by_cases hlt : lt m a = true
      · rw [if_pos hlt] at h; cases h
      · rw [if_neg hlt] at h; cases h

theorem extractMin_perm {α : Type} (lt : α → α → Bool) :
    ∀ {l : List α} {x : α} {r : List α},
      extractMin lt l = some (x, r) → (x :: r).Perm l := by
  intro l
  induction l with
  | nil => intro x r h; cases h
  | cons a t ih =>
    intro x r h
    unfold extractMin at h
    cases hme : extractMin lt t with
    | none =>
      simp only [hme, Option.some_inj, Prod.mk.injEq] at h
      rw [← h.1, ← h.2, extractMin_eq_none lt hme]
    | some pr =>
      obtain ⟨m, rest⟩ := pr
      simp only [hme] at h
      by_cases hlt : lt m a = true
      · rw [if_pos hlt] at h
        simp only [Option.some_inj, Prod.mk.injEq] at h
        rw [← h.1, ← h.2]
        exact (List.Perm.swap a m rest).trans ((ih hme).cons a)
      · rw [if_neg hlt] at h
        simp only [Option.some_inj, Prod.mk.injEq] at h
        rw [← h.1, ← h.2]

theorem extractMin_min {α : Type} (lt : α → α → Bool)
    (hasym : ∀ a b, lt a b = true → lt b a = false)
    (hneg : ∀ a b c, lt a b = false → lt b c = false → lt a c = false) :
    ∀ {l : List α} {x : α} {r : List α},
      extractMin lt l = some (x, r) → ∀ y ∈ r, lt y x = false := by
  intro l
  induction l with
  | nil => intro x r h; cases h
  | cons a t ih =>
    intro x r h y hy
    unfold extractMin at h
    cases hme : extractMin lt t with
    | none =>
      simp only [hme, Option.some_inj, Prod.mk.injEq] at h
      rw [← h.2] at hy
      cases hy
    | some pr =>
      obtain ⟨m, rest⟩ := pr
      simp only [hme] at h
      by_cases hlt : lt m a = true
      · rw [if_pos hlt] at h
        simp only [Option.some_inj, Prod.mk.injEq] at h
        rw [← h.1]
        rw [← h.2] at hy
        rcases List.mem_cons.mp hy with hya | hyr
        · rw [hya]
          exact hasym m a hlt
        · exact ih hme y hyr
      · rw [if_neg hlt] at h
        simp only [Option.some_inj, Prod.mk.injEq] at h
        rw [← h.1]
        rw [← h.2] at hy
        have hyt : y ∈ m :: rest := (extractMin_perm lt hme).symm.subset hy
        have hfa : lt m a = false := Bool.eq_false_iff.mpr hlt
        rcases List.mem_cons.mp hyt with hym | hyr
        · rw [hym]
          exact hfa
        · exact hneg y m a (ih hme y hyr) hfa

theorem extractMin_length {α : Type} (lt : α → α → Bool) {l : List α} {x : α} {r : List α}
    (h : extractMin lt l = some (x, r)) : r.length + 1 = l.length := by
  have := (extractMin_perm lt h).length_eq
  simpa using this

theorem drainAux_perm {α : Type} (lt : α → α → Bool) :
    ∀ (n : ℕ) (l : List α), l.length ≤ n → (drainAux lt n l).Perm l := by
  intro n
  induction n with
  | zero =>
    intro l hl
    rw [List.eq_nil_of_length_eq_zero (Nat.le_zero.mp hl)]
    exact List.Perm.refl _
  | succ n ih =>
    intro l hl
    unfold drainAux
    cases hme : extractMin lt l with
    | none =>
      rw [extractMin_eq_none lt hme]
    | some pr =>
      obtain ⟨x, r⟩ := pr
      have hlen := extractMin_length lt hme
      have hr : r.length ≤ n := by omega
      exact ((ih r hr).cons x).trans (extractMin_perm lt hme)

theorem drainAux_pairwise {α : Type} (lt : α → α → Bool)
    (hasym : ∀ a b, lt a b = true → lt b a = false)
    (hneg : ∀ a b c, lt a b = false → lt b c = false → lt a c = false) :
    ∀ (n : ℕ) (l : List α), l.length ≤ n →
      (drainAux lt n l).Pairwise (fun a b => lt b a = false) := by
  intro n
  induction n with
  | zero =>
    intro l hl
    exact List.Pairwise.nil
  | succ n ih =>
    intro l hl
    unfold drainAux
    cases hme : extractMin lt l with
    | none => exact List.Pairwise.nil
    | some pr =>
      obtain ⟨x, r⟩ := pr
      have hlen := extractMin_length lt hme
      have hr : r.length ≤ n := by omega
      refine List.Pairwise.cons ?_ (ih r hr)
      intro y hy
      have hyr : y ∈ r := (drainAux_perm lt n r hr).subset hy
      exact extractMin_min lt hasym hneg hme y hyr

theorem opLt_iff (a b : OperacaoModelo) :
    OperacaoModelo.lt a b = true ↔
      b.prioridade < a.prioridade ∨
        (a.prioridade = b.prioridade ∧ a.timestamp_criacao < b.timestamp_criacao) := by
  unfold OperacaoModelo.lt
  by_cases hp : a.prioridade = b.prioridade
  · rw [if_neg (by simp [hp])]
    simp [hp]
  · rw [if_pos hp]
    simp only [decide_eq_true_eq]
    constructor
    · intro h
      exact Or.inl h
    · rintro (h | ⟨he, _⟩)
      · exact h
      · exact absurd he hp

theorem opLt_false_iff (a b : OperacaoModelo) :
    OperacaoModelo.lt b a = false ↔
      b.prioridade < a.prioridade ∨
        (a.prioridade = b.prioridade ∧ a.timestamp_criacao ≤ b.timestamp_criacao) := by
  rw [Bool.eq_false_iff, Ne, opLt_iff]
  constructor
  · intro h
    rcases Nat.lt_trichotomy a.prioridade b.prioridade with hlt | heq | hgt
    · exact absurd (Or.inl hlt) h
    · refine Or.inr ⟨heq, ?_⟩
      by_contra hts
      push_neg at hts
      exact h (Or.inr ⟨heq.symm, hts⟩)
    · exact Or.inl hgt
  · rintro (hgt | ⟨heq, hle⟩) hcon
    · rcases hcon with h1 | ⟨h2, _⟩
      · omega
      · omega
    · rcases hcon with h1 | ⟨h2, hts⟩
      · omega
      · exact absurd hle (not_le.mpr hts)

theorem opLt_asymm : ∀ a b : OperacaoModelo,
    OperacaoModelo.lt a b = true → OperacaoModelo.lt b a = false := by
  intro a b h
  rw [opLt_iff] at h
  rw [opLt_false_iff]
  exact h.imp id (fun hp => ⟨hp.1, le_of_lt hp.2⟩)

theorem opLt_negtrans : ∀ a b c : OperacaoModelo,
    OperacaoModelo.lt a b = false → OperacaoModelo.lt b c = false →
    OperacaoModelo.lt a c = false := by
  intro a b c h1 h2
  rw [opLt_false_iff] at h1
  rw [opLt_false_iff] at h2
  rw [opLt_false_iff]
  rcases h1 with hp1 | ⟨he1, ht1⟩ <;> rcases h2 with hp2 | ⟨he2, ht2⟩
  · exact Or.inl (lt_trans hp1 hp2)
  · left
    omega
  · left
    omega
  · exact Or.inr ⟨he2.trans he1, le_trans ht2 ht1⟩

/-- C2: draining the scheduler's heap with no further pushes dispatches a
permutation of the enqueued operations, ordered strictly by priority
(higher first) and FIFO by creation timestamp within one priority band; in
particular the spec's example [1,10,5,10,1] (creation order 0..4) dispatches
as [10(earliest), 10(later), 5, 1(earliest), 1(later)]. -/
theorem c2_despacho_por_prioridade_fifo :
    (∀ ops : List OperacaoModelo,
      (drainFila OperacaoModelo.lt ops).Perm ops ∧
      (drainFila OperacaoModelo.lt ops).Pairwise (fun a b =>
        b.prioridade < a.prioridade ∨
          (a.prioridade = b.prioridade ∧ a.timestamp_criacao ≤ b.timestamp_criacao))) ∧
    (drainFila OperacaoModelo.lt opsC2).map
        (fun o => (o.prioridade, o.timestamp_criacao))
      = [(10, 1), (10, 3), (5, 2), (1, 0), (1, 4)] := by
  constructor
  · intro ops
    constructor
    · exact drainAux_perm OperacaoModelo.lt ops.length ops le_rfl
    · exact (drainAux_pairwise OperacaoModelo.lt opLt_asymm opLt_negtrans
        ops.length ops le_rfl).imp (fun h => (opLt_false_iff _ _).mp h)
  · decide

/-- C4: the waiting-queue sweep considers requests lowest priority first.
`fila_aguardando_recurso.sort(reverse=True)` combined with a `__lt__` that
already puts higher priority first yields the ascending order, so with one
free worker slot the priority-1 request (created first) is admitted and the
priority-10 request stays `AGUARDANDO_RECURSO` — the opposite of the claim
(and of the code's own comment "Prioridade maior primeiro"). -/
theorem c4_aguardando_menor_prioridade_primeiro :
    (ordemAguardando [raC4, rbC4]).map Requisicao.prioridade = [1, 10] ∧
    (gC4.obter_status_requisicao "a").map Requisicao.status
      = some StatusRequisicao.processando ∧
    (gC4.obter_status_requisicao "b").map Requisicao.status
      = some StatusRequisicao.aguardando_recurso := by
  decide

/-! ## Memory-pressure eviction (C7) -/

theorem otimizarLoop_eq_filter (percentual : ℚ) (h : ¬ percentual < 70) :
    ∀ l : List (ℤ × String × ℕ),
      otimizarLoop percentual l
        = (l.filter (fun t => decide (t.2.2 < 8))).map (fun t => t.2.1) := by
  intro l
  induction l with
  | nil => rfl
  | cons t resto ih =>
    unfold otimizarLoop
    rw [if_neg h]
    by_cases hp : t.2.2 < 8
    · rw [if_pos hp]
      simp [List.filter_cons, hp, ih]
    · rw [if_neg hp]
      simp [List.filter_cons, hp, ih]

/-- C7: one memory-pressure sweep acts only above the 85% high-water mark;
when it acts, it schedules unloads for exactly the `CARREGADO` models of
static priority < 8 in oldest-last-used-first order (the sorted eligible
list, which the sweep exhausts since the single usage measurement never
re-reads below the 70% low-water mark), and a model of priority ≥ 8 is never
scheduled. -/
theorem c7_evicao_por_pressao_de_memoria (reg : RegistroModelos) (percentual : ℚ) :
    (¬ percentual > 85 → AgendadorModelos.otimizar_memoria percentual reg = []) ∧
    (percentual > 85 →
      AgendadorModelos.otimizar_memoria percentual reg
        = (elegiveisEvicao reg).map (fun t => t.2.1)) ∧
    (elegiveisEvicao reg).Pairwise (fun a b => a.1 ≤ b.1) ∧
    (∀ nome ∈ AgendadorModelos.otimizar_memoria percentual reg,
      (∃ m : MetadadosModelo, reg.obter_metadados nome = some m ∧ m.prioridade < 8) ∧
      ∃ s : StatusDetalhado, (nome, s) ∈ reg.status_modelos ∧
        s.status = StatusModelo.carregado) := by
  have hmain : percentual > 85 →
      AgendadorModelos.otimizar_memoria percentual reg
        = (elegiveisEvicao reg).map (fun t => t.2.1) := by
    intro h
    unfold AgendadorModelos.otimizar_memoria elegiveisEvicao
    rw [if_pos h]
    exact otimizarLoop_eq_filter percentual (by linarith) _
  refine ⟨?_, hmain, ?_, ?_⟩
  · intro h
    unfold AgendadorModelos.otimizar_memoria
    rw [if_neg h]
  · have hsorted : (List.insertionSort tuplaLE (triplosCarregados reg)).Pairwise tuplaLE :=
      List.sorted_insertionSort tuplaLE (triplosCarregados reg)
    have hsub : List.Sublist (elegiveisEvicao reg)
        (List.insertionSort tuplaLE (triplosCarregados reg)) :=
      List.filter_sublist _
    exact (hsorted.sublist hsub).imp (fun hab => by
      rcases hab with h1 | ⟨he, _⟩
      · exact le_of_lt h1
      · exact le_of_eq he)
  · intro nome hmem
    by_cases hp : percentual > 85
    · rw [hmain hp] at hmem
      rcases List.mem_map.mp hmem with ⟨t, ht, hnome⟩
      have htf := List.mem_filter.mp ht
      have htsorted := htf.1
      have hprio : t.2.2 < 8 := by
        have := htf.2
        simpa using this
      have htl : t ∈ triplosCarregados reg := (List.mem_insertionSort tuplaLE).mp htsorted
      unfold triplosCarregados at htl
      rcases List.mem_filterMap.mp htl with ⟨nm, hnm, hmap⟩
      rcases Option.map_eq_some'.mp hmap with ⟨m, hm, htrip⟩
      have hnome2 : nome = nm := by
        rw [← hnome, ← htrip]
      have hmp : m.prioridade = t.2.2 := by
        rw [← htrip]
      constructor
      · exact ⟨m, by rw [hnome2]; exact hm, by rw [hmp]; exact hprio⟩
      · unfold RegistroModelos.obter_modelos_carregados
          RegistroModelos.listar_modelos_por_status at hnm
        rcases List.mem_map.mp hnm with ⟨p, hpf, hp1⟩
        have hpp := List.mem_filter.mp hpf
        refine ⟨p.2, ?_, ?_⟩
        · rw [hnome2, ← hp1]
          exact hpp.1
        · have := hpp.2
          simpa using this
    · unfold AgendadorModelos.otimizar_memoria at hmem
      rw [if_neg hp] at hmem
      cases hmem
